import Mathlib

/-!
# tomviz: `SaveDataReaction::saveData` and the `Pipeline` pause / execution-mode state

A shallow embedding of

* `src/tomviz/SaveDataReaction.cxx`, `SaveDataReaction::saveData` (lines 107-218), and
* the member state declared in `src/tomviz/Pipeline.h` (lines 56-61, 68-80, 102-105, 130-133).

`saveData` is C++ code over nullable pointers and external components (the EMD writer,
Python writers, the ParaView writer factory, a modal dialog).  The embedding is explicit
state passing:

* a nullable pointer is an `Option`; dereferencing `none` ends the run with
  `Outcome.nullDeref` (the C++ behaviour is undefined there; nothing is returned);
* every external component is a field of `Env`, a total function giving the component's
  answer; the theorems quantify over all of `Env`.  The external components read the data
  sources and do not alter their persistence state or file name;
* every externally visible action is appended to a trace of `Event`s.
-/

namespace tomviz

/-! ## Qt strings and `QFileInfo::suffix` -/

/-- A `QString`, as its list of characters. -/
abbrev QString := List Char

/-- The part of `s` after the last occurrence of `c`; `none` when `c` does not occur. -/
def afterLast (c : Char) : List Char → Option (List Char)
  | [] => none
  | x :: xs =>
    match afterLast c xs with
    | some r => some r
    | none => if x = c then some xs else none

/-- `QFileInfo::fileName()`: the name without the path, i.e. what follows the last `/`. -/
def QFileInfo.fileName (path : QString) : QString :=
  (afterLast '/' path).getD path

/-- `QFileInfo::suffix()`: all characters of the file name after (not including) the last
`.`, empty when the file name has no `.`. -/
def QFileInfo.suffix (path : QString) : QString :=
  (afterLast '.' (QFileInfo.fileName path)).getD []

/-- `QString::toLower()` (on the ASCII letters). -/
def toLower (s : QString) : QString := s.map Char.toLower

/-- `QString::toLatin1()`: characters outside Latin-1 are replaced by `?`. -/
def toLatin1 (s : QString) : QString := s.map fun c => if c.toNat < 256 then c else '?'

/-! ## The objects `saveData` touches -/

/-- `DataSource::PersistenceState`.  The source names only `Saved`; the other enumerators
(declared in `DataSource.h`) are kept as an uninterpreted tag. -/
inductive PersistenceState where
  | Saved
  | Other (tag : Nat)
  deriving DecidableEq

/-- `VTK_DOUBLE` of `vtkType.h`. -/
def VTK_DOUBLE : Nat := 11

/-- A `vtkImageData`: `scalars` is the data type of `GetPointData()->GetScalars()`,
`none` when there is no scalar array. -/
structure ImageData where
  id : Nat
  scalars : Option Nat
  deriving DecidableEq

/-- A `vtkTrivialProducer`: `output` is
`vtkImageData::SafeDownCast(GetOutputDataObject(0))`, `none` when that is null. -/
structure TrivialProducer where
  output : Option ImageData
  deriving DecidableEq

/-- A `vtkSMSourceProxy`: `trivialProducer` is
`vtkTrivialProducer::SafeDownCast(GetClientSideObject())`, `none` when that is null. -/
structure SourceProxy where
  id : Nat
  trivialProducer : Option TrivialProducer
  deriving DecidableEq

/-- A `DataSource`, as far as `saveData` reads or writes it. -/
structure DataSource where
  persistenceState : PersistenceState
  fileName : QString
  /-- The value of `proxy()`. -/
  proxy : Option SourceProxy
  /-- The value of `producer()`. -/
  producer : Option TrivialProducer
  deriving DecidableEq

/-- An `OperatorResult`, as far as `saveData` reads it. -/
structure OperatorResult where
  id : Nat
  /-- The value of `producerProxy()`. -/
  producerProxy : Option SourceProxy
  deriving DecidableEq

/-- The writer proxy obtained from the writer factory. -/
structure Writer where
  id : Nat
  /-- The value of `GetClientSideObject()->GetClassName()`, `none` when there is no client
  side object. -/
  className : Option String
  /-- The value of `pqProxyWidgetDialog(writer).hasVisibleWidgets()`. -/
  hasVisibleWidgets : Bool
  deriving DecidableEq

/-- The enumerator `QDialog::Rejected` of `QDialog::DialogCode`. -/
def QDialog.Rejected : Int := 0

/-- The enumerator `QDialog::Accepted` of `QDialog::DialogCode`. -/
def QDialog.Accepted : Int := 1

/-- The external components `saveData` calls. -/
structure Env where
  /-- The value of `EmdFormat::write(fileName, source)`. -/
  emdWrite : QString → Option DataSource → Bool
  /-- The value of `FileFormatManager::pythonWriterFactory(suffix)`: the factory, or `none` for null. -/
  pythonWriterFactory : QString → Option Nat
  /-- The value of `factory->createWriter().write(fileName, data)`. -/
  pythonWrite : Nat → QString → Option ImageData → Bool
  /-- The value of `SafeDownCast(writerFactory->CreateWriter(fileName, producer))`. -/
  createWriter : QString → Option SourceProxy → Option Writer
  /-- The value of `dialog.result()` after `dialog.exec()`. -/
  dialogResult : Writer → Int

/-- What `saveData` does that is visible outside it, in order. -/
inductive Event where
  | critical (msg : String)
  | criticalFile (msg : String) (file : QString)
  | registerPythonWriters
  | emdWrite (file : QString) (source : Option DataSource)
  | pythonWrite (factory : Nat) (file : QString) (data : Option ImageData)
  | createWriter (file : QString) (producer : Option SourceProxy)
  | convertToFloat (image : ImageData)
  | tiffWrite (file : QString) (image : ImageData)
  | dialogExec (writer : Writer)
  | updateVTKObjects (writer : Writer)
  | updatePipeline (writer : Writer)
  deriving DecidableEq

/-- An event that puts data into a file. -/
def Event.isWrite : Event → Bool
  | .emdWrite _ _ => true
  | .pythonWrite _ _ _ => true
  | .tiffWrite _ _ => true
  | .updatePipeline _ => true
  | _ => false

/-- The application state `saveData` reads: the active objects and the data sources. -/
structure AppState where
  /-- Whether `pqActiveObjects::instance().activeServer()` is non-null. -/
  activeServer : Bool
  /-- The object `ActiveObjects::instance().activeDataSource()` points to. -/
  activeDataSource : Option DataSource
  /-- The object `ActiveObjects::instance().activeOperatorResult()` points to. -/
  activeOperatorResult : Option OperatorResult
  /-- The data sources that are not the active one. -/
  otherDataSources : List DataSource
  deriving DecidableEq

/-- How a call ends: it returns a `bool`, or it dereferences a null pointer. -/
inductive Outcome where
  | returned (value : Bool)
  | nullDeref
  deriving DecidableEq

/-- A finished call: how it ended, the state it left and the events it produced. -/
structure Run where
  outcome : Outcome
  state : AppState
  trace : List Event
  deriving DecidableEq

/-! ## `SaveDataReaction::saveData` -/

/-- The `updateSource` lambda (lines 113-116). -/
def updateSource (fileName : QString) (ds : DataSource) : DataSource :=
  { ds with persistenceState := PersistenceState.Saved, fileName := fileName }

/-- The statements `updateSource(filename, source); return true;` where `source` is the
active data source pointer: they dereference `source`. -/
def updateSourceReturnTrue (filename : QString) (st : AppState) (trace : List Event) : Run :=
  match st.activeDataSource with
  | none => ⟨Outcome.nullDeref, st, trace⟩
  | some ds =>
    ⟨Outcome.returned true, { st with activeDataSource := some (updateSource filename ds) }, trace⟩

/-- Lines 197-217: the writer settings dialog, then the writer. -/
def saveDataDialog (env : Env) (filename : QString) (writer : Writer) (st : AppState)
    (trace : List Event) : Run :=
  if writer.hasVisibleWidgets then
    let trace := trace ++ [Event.dialogExec writer]
    if env.dialogResult writer = QDialog.Rejected then
      ⟨Outcome.returned false, st, trace⟩
    else
      updateSourceReturnTrue filename st
        (trace ++ [Event.updateVTKObjects writer, Event.updatePipeline writer])
  else
    updateSourceReturnTrue filename st
      (trace ++ [Event.updateVTKObjects writer, Event.updatePipeline writer])

/-- Lines 157-164: the producer to save. -/
def selectProducer (source : Option DataSource) (result : Option OperatorResult) :
    Option SourceProxy :=
  let producer : Option SourceProxy := none
  let producer := match source with
    | some ds => ds.proxy
    | none => producer
  match result with
  | some r => r.producerProxy
  | none => producer

/-- Lines 157-217: the ParaView writer path. -/
def saveDataGeneric (env : Env) (filename : QString) (st : AppState) (trace : List Event) :
    Run :=
  let producer := selectProducer st.activeDataSource st.activeOperatorResult
  let trace := trace ++ [Event.createWriter (toLatin1 filename) producer]
  match env.createWriter (toLatin1 filename) producer with
  | none => ⟨Outcome.returned false, st,
      trace ++ [Event.criticalFile "Failed to create writer for: " filename]⟩
  | some writer =>
    match writer.className with
    | none => ⟨Outcome.nullDeref, st, trace⟩
    | some cls =>
      if cls = "vtkTIFFWriter" then
        match producer with
        | none => ⟨Outcome.nullDeref, st, trace⟩
        | some p =>
          match p.trivialProducer with
          | none => ⟨Outcome.nullDeref, st, trace⟩
          | some t =>
            match t.output with
            | none => ⟨Outcome.nullDeref, st, trace⟩
            | some imageData =>
              match imageData.scalars with
              | none => ⟨Outcome.nullDeref, st, trace⟩
              | some ty =>
                if ty = VTK_DOUBLE then
                  updateSourceReturnTrue filename st
                    (trace ++ [Event.convertToFloat imageData,
                      Event.tiffWrite (toLatin1 filename) imageData])
                else
                  saveDataDialog env filename writer st trace
      else
        saveDataDialog env filename writer st trace

/-- The method `SaveDataReaction::saveData` (lines 107-218). -/
def saveData (env : Env) (filename : QString) (st : AppState) : Run :=
  let source := st.activeDataSource
  let result := st.activeOperatorResult
  if !st.activeServer then
    ⟨Outcome.returned false, st, [Event.critical "No active server located."]⟩
  else if source.isNone && result.isNone then
    ⟨Outcome.returned false, st, [Event.critical "No active source located."]⟩
  else
    let trace := [Event.registerPythonWriters]
    let suffix := QFileInfo.suffix filename
    if suffix = ['e', 'm', 'd'] then
      let trace := trace ++ [Event.emdWrite (toLatin1 filename) source]
      if !env.emdWrite (toLatin1 filename) source then
        ⟨Outcome.returned false, st, trace ++ [Event.critical "Failed to write out data."]⟩
      else
        updateSourceReturnTrue filename st trace
    else
      match env.pythonWriterFactory (toLower suffix) with
      | some factory =>
        match source with
        | none => ⟨Outcome.nullDeref, st, trace⟩
        | some ds =>
          match ds.producer with
          | none => ⟨Outcome.nullDeref, st, trace⟩
          | some t =>
            let data := t.output
            let trace := trace ++ [Event.pythonWrite factory filename data]
            if !env.pythonWrite factory filename data then
              ⟨Outcome.returned false, st,
                trace ++ [Event.critical "Failed to write out data."]⟩
            else
              updateSourceReturnTrue filename st trace
      | none => saveDataGeneric env filename st trace

/-- What every piece of `saveData` guarantees about the run `r` it ends with, from the
state `st`: `true` is returned only with the active data source marked, `false` only with
the state untouched. -/
def marksSourceOrLeaves (filename : QString) (st : AppState) (r : Run) : Prop :=
  (r.outcome = Outcome.returned true →
    ∃ ds, st.activeDataSource = some ds ∧
      r.state = { st with activeDataSource := some (updateSource filename ds) }) ∧
  (r.outcome = Outcome.returned false → r.state = st)

/-- What a writer event hands to the writer it calls. -/
inductive Handed where
  | source (ds : Option DataSource)
  | image (data : Option ImageData)
  | producer (p : Option SourceProxy)
  deriving DecidableEq

/-- The data an event hands to a writer; `none` for the events that call no writer with
data. -/
def Event.handed : Event → Option Handed
  | .emdWrite _ source => some (Handed.source source)
  | .pythonWrite _ _ data => some (Handed.image data)
  | .createWriter _ producer => some (Handed.producer producer)
  | .tiffWrite _ image => some (Handed.image (some image))
  | _ => none

/-- Everything handed to a writer during a run, in order. -/
def handedData (trace : List Event) : List Handed := trace.filterMap Event.handed

/-- The image behind a producer proxy:
`SafeDownCast(producer->GetClientSideObject())->GetOutputDataObject(0)`. -/
def producerImage (p : Option SourceProxy) : Option ImageData :=
  (p.bind fun q => q.trivialProducer).bind fun t => t.output

/-- The item `h` handed to a writer is the producer `p` or the image behind `p`. -/
def isFromProducer (p : Option SourceProxy) (h : Handed) : Prop :=
  h = Handed.producer p ∨ h = Handed.image (producerImage p)

instance (p : Option SourceProxy) (h : Handed) : Decidable (isFromProducer p h) := by
  unfold isFromProducer
  infer_instance

/-- The statement "if an operator result is active, `saveData` saves it": whenever an
operator result is active, everything handed to a writer is that result's producer. -/
def savesActiveResult (env : Env) (filename : QString) (st : AppState) : Prop :=
  ∀ r, st.activeOperatorResult = some r →
    ∀ h ∈ handedData (saveData env filename st).trace, isFromProducer r.producerProxy h

/-- The run reaches the writer settings dialog (line 197) with the writer `w`: a server
and a source or result are active, the suffix selects neither the EMD writer nor a Python
writer, the factory created `w`, and the TIFF conversion of lines 177-195 did not return. -/
def reachesDialog (env : Env) (filename : QString) (st : AppState) (w : Writer) : Prop :=
  st.activeServer = true ∧
  (st.activeDataSource ≠ none ∨ st.activeOperatorResult ≠ none) ∧
  QFileInfo.suffix filename ≠ ['e', 'm', 'd'] ∧
  env.pythonWriterFactory (toLower (QFileInfo.suffix filename)) = none ∧
  env.createWriter (toLatin1 filename)
    (selectProducer st.activeDataSource st.activeOperatorResult) = some w ∧
  ∃ cls, w.className = some cls ∧
    (cls = "vtkTIFFWriter" →
      ∃ ty, (producerImage (selectProducer st.activeDataSource
          st.activeOperatorResult)).bind (fun img => img.scalars) = some ty ∧
        ty ≠ VTK_DOUBLE)

/-- How often the writer `w` was run: `UpdatePipeline` calls on it. -/
def writerRuns (w : Writer) (trace : List Event) : Nat :=
  trace.count (Event.updatePipeline w)

/-- How often `UpdateVTKObjects` was called on the writer `w`. -/
def writerUpdates (w : Writer) (trace : List Event) : Nat :=
  trace.count (Event.updateVTKObjects w)

/-- How often the settings dialog of the writer `w` was shown. -/
def dialogShows (w : Writer) (trace : List Event) : Nat :=
  trace.count (Event.dialogExec w)

/-! ## `Pipeline` (Pipeline.h) -/

/-- The enumeration `Pipeline::ExecutionMode` (lines 56-60). -/
inductive Pipeline.ExecutionMode where
  | Threaded
  | Docker
  deriving DecidableEq

/-- The data members of `Pipeline` that hold its pause flag and execution mode
(lines 130-133); `m_data` is the identity of the root data source. -/
structure Pipeline where
  m_data : Nat
  m_paused : Bool
  m_executionMode : Pipeline.ExecutionMode
  deriving DecidableEq

/-- What a call asks the pipeline to execute. -/
inductive Pipeline.Execution where
  | whole
  | startingAt (dataSource : Nat)
  deriving DecidableEq

/-- Modelled from the spec: the constructor `Pipeline::Pipeline(DataSource*, QObject*)`,
whose body (Pipeline.cxx) is missing.  The members take the default member initialisers of
lines 131 and 133, `m_paused = false` and `m_executionMode = Threaded`: the state of a
pipeline whose mode was never set. -/
def Pipeline.init (dataSource : Nat) : Pipeline :=
  { m_data := dataSource, m_paused := false,
    m_executionMode := Pipeline.ExecutionMode.Threaded }

/-- Modelled from the spec: `Pipeline::pause()`, whose body (Pipeline.cxx) is missing:
"Pause the automatic execution of the pipeline". -/
def Pipeline.pause (p : Pipeline) : Pipeline :=
  { p with m_paused := true }

/-- Modelled from the spec: `Pipeline::paused()`, whose body (Pipeline.cxx) is missing:
"Returns true if pipeline is currently paused, false otherwise". -/
def Pipeline.paused (p : Pipeline) : Bool :=
  p.m_paused

/-- Modelled from the spec: `Pipeline::resume(bool execute)`, whose body (Pipeline.cxx) is
missing: "Resume the automatic execution of the pipeline ... If execute is true the entire
pipeline will be executed". -/
def Pipeline.resume (p : Pipeline) (execute : Bool) : Pipeline × Option Pipeline.Execution :=
  ({ p with m_paused := false }, if execute then some Pipeline.Execution.whole else none)

/-- Modelled from the spec: `Pipeline::resume(DataSource* at)`, whose body (Pipeline.cxx)
is missing: "Resume the automatic execution of the pipeline, will execute the existing
pipeline starting at the given data source". -/
def Pipeline.resumeAt (p : Pipeline) (start : Nat) : Pipeline × Option Pipeline.Execution :=
  ({ p with m_paused := false }, some (Pipeline.Execution.startingAt start))

/-- Modelled from the spec: `Pipeline::setExecutionMode(ExecutionMode)`, whose body
(Pipeline.cxx) is missing: "Set the execution mode to use when executing the pipeline". -/
def Pipeline.setExecutionMode (p : Pipeline) (executor : Pipeline.ExecutionMode) : Pipeline :=
  { p with m_executionMode := executor }

/-- The inline member `Pipeline::executionMode()` (line 105). -/
def Pipeline.executionMode (p : Pipeline) : Pipeline.ExecutionMode :=
  p.m_executionMode

/-! ## Concrete inputs -/

/-- The image of the sample data source: unsigned char scalars. -/
def sampleImage : ImageData := { id := 1, scalars := some 3 }

/-- The producer proxy of the sample data source. -/
def sampleSourceProxy : SourceProxy :=
  { id := 1, trivialProducer := some { output := some sampleImage } }

/-- A modified data source that was loaded from `in.tiff`. -/
def sampleSource : DataSource :=
  { persistenceState := PersistenceState.Other 2, fileName := "in.tiff".toList,
    proxy := some sampleSourceProxy, producer := some { output := some sampleImage } }

/-- The producer proxy of the sample operator result. -/
def sampleResultProxy : SourceProxy :=
  { id := 2, trivialProducer := some { output := some { id := 2, scalars := some 3 } } }

/-- An operator result. -/
def sampleResult : OperatorResult := { id := 7, producerProxy := some sampleResultProxy }

/-- A writer without properties the user can set. -/
def sampleWriter : Writer :=
  { id := 5, className := some "vtkXMLImageDataWriter", hasVisibleWidgets := false }

/-- A writer with properties the user can set. -/
def sampleWriterWithSettings : Writer :=
  { id := 6, className := some "vtkXMLImageDataWriter", hasVisibleWidgets := true }

/-- Every writer succeeds, no Python writer is registered, the factory creates
`sampleWriter`, the user accepts dialogs. -/
def sampleEnv : Env :=
  { emdWrite := fun _ _ => true
    pythonWriterFactory := fun _ => none
    pythonWrite := fun _ _ _ => true
    createWriter := fun _ _ => some sampleWriter
    dialogResult := fun _ => QDialog.Accepted }

/-- As `sampleEnv`, but the EMD writer fails. -/
def failingEmdEnv : Env := { sampleEnv with emdWrite := fun _ _ => false }

/-- As `sampleEnv`, but the factory creates `sampleWriterWithSettings` and the user presses
Cancel. -/
def cancellingEnv : Env :=
  { sampleEnv with
    createWriter := fun _ _ => some sampleWriterWithSettings
    dialogResult := fun _ => QDialog.Rejected }

/-- A server and the sample data source are active, no operator result. -/
def sourceOnlyState : AppState :=
  { activeServer := true, activeDataSource := some sampleSource,
    activeOperatorResult := none, otherDataSources := [] }

/-- A server, the sample data source and the sample operator result are active. -/
def sourceAndResultState : AppState :=
  { sourceOnlyState with activeOperatorResult := some sampleResult }

/-- A server and the sample operator result are active, no data source. -/
def resultOnlyState : AppState :=
  { sourceAndResultState with activeDataSource := none }

/-- No server is active. -/
def noServerState : AppState := { sourceAndResultState with activeServer := false }

/-- A server is active, but neither a data source nor an operator result. -/
def nothingActiveState : AppState :=
  { activeServer := true, activeDataSource := none, activeOperatorResult := none,
    otherDataSources := [sampleSource] }

/-! ## Lemmas on the pieces of `saveData` -/

theorem updateSourceReturnTrue_marks (filename : QString) (st : AppState)
    (trace : List Event) :
    marksSourceOrLeaves filename st (updateSourceReturnTrue filename st trace) := by
  unfold updateSourceReturnTrue marksSourceOrLeaves
  cases h : st.activeDataSource <;> simp

theorem saveDataDialog_marks (env : Env) (filename : QString) (w : Writer) (st : AppState)
    (trace : List Event) :
    marksSourceOrLeaves filename st (saveDataDialog env filename w st trace) := by
  unfold saveDataDialog
  split
  · split
    · simp [marksSourceOrLeaves]
    · exact updateSourceReturnTrue_marks _ _ _
  · exact updateSourceReturnTrue_marks _ _ _

theorem saveDataGeneric_marks (env : Env) (filename : QString) (st : AppState)
    (trace : List Event) :
    marksSourceOrLeaves filename st (saveDataGeneric env filename st trace) := by
  unfold saveDataGeneric
  simp only
  repeat' split
  all_goals first
    | exact updateSourceReturnTrue_marks _ _ _
    | exact saveDataDialog_marks _ _ _ _ _
    | simp [marksSourceOrLeaves]

theorem saveData_marks (env : Env) (filename : QString) (st : AppState) :
    marksSourceOrLeaves filename st (saveData env filename st) := by
  unfold saveData
  simp only
  repeat' split
  all_goals first
    | exact updateSourceReturnTrue_marks _ _ _
    | exact saveDataGeneric_marks _ _ _ _
    | simp [marksSourceOrLeaves]


/-- C1: without an active server, and with a server but neither an active data source nor
an active operator result, `saveData` returns `false`, hands nothing to any writer, produces
no writing event, and leaves the whole state (every data source) as it was, for every file
name and every behaviour of the external components. -/
theorem saveData_returns_false_without_server_or_active_object (env : Env)
    (filename : QString) (st : AppState)
    (h : st.activeServer = false ∨
      (st.activeServer = true ∧ st.activeDataSource = none ∧
        st.activeOperatorResult = none)) :
    (saveData env filename st).outcome = Outcome.returned false ∧
    (∀ e ∈ (saveData env filename st).trace, e.isWrite = false) ∧
    handedData (saveData env filename st).trace = [] ∧
    (saveData env filename st).state = st := by
  rcases h with h | ⟨h1, h2, h3⟩
  · simp [saveData, h, handedData, Event.isWrite, Event.handed]
  · simp [saveData, h1, h2, h3, handedData, Event.isWrite, Event.handed]

/-- The two cases of C1 at `noServerState` and at `nothingActiveState`. -/
theorem saveData_returns_false_without_server_or_active_object_witness :
    ((noServerState.activeServer = false ∨
      (noServerState.activeServer = true ∧ noServerState.activeDataSource = none ∧
        noServerState.activeOperatorResult = none)) ∧
      (saveData sampleEnv "out.emd".toList noServerState).outcome = Outcome.returned false ∧
      (∀ e ∈ (saveData sampleEnv "out.emd".toList noServerState).trace, e.isWrite = false) ∧
      handedData (saveData sampleEnv "out.emd".toList noServerState).trace = [] ∧
      (saveData sampleEnv "out.emd".toList noServerState).state = noServerState) ∧
    ((nothingActiveState.activeServer = false ∨
      (nothingActiveState.activeServer = true ∧ nothingActiveState.activeDataSource = none ∧
        nothingActiveState.activeOperatorResult = none)) ∧
      (saveData sampleEnv "out.vti".toList nothingActiveState).outcome =
        Outcome.returned false ∧
      (∀ e ∈ (saveData sampleEnv "out.vti".toList nothingActiveState).trace,
        e.isWrite = false) ∧
      handedData (saveData sampleEnv "out.vti".toList nothingActiveState).trace = [] ∧
      (saveData sampleEnv "out.vti".toList nothingActiveState).state = nothingActiveState) :=
  ⟨⟨Or.inl rfl,
      saveData_returns_false_without_server_or_active_object sampleEnv "out.emd".toList
        noServerState (Or.inl rfl)⟩,
    ⟨Or.inr ⟨rfl, rfl, rfl⟩,
      saveData_returns_false_without_server_or_active_object sampleEnv "out.vti".toList
        nothingActiveState (Or.inr ⟨rfl, rfl, rfl⟩)⟩⟩

/-- C2: for every file name and every behaviour of the writers and the dialog, `saveData`
returns `true` only with an active data source that it has marked: the state it leaves is the
old one with that data source's persistence state `Saved` and file name the given one; and
whenever it returns `false` the state, so the data source's persistence state and file name,
is unchanged. -/
theorem saveData_true_only_after_source_marked_saved (env : Env) (filename : QString)
    (st : AppState) :
    ((saveData env filename st).outcome = Outcome.returned true →
      ∃ ds ds', st.activeDataSource = some ds ∧
        (saveData env filename st).state.activeDataSource = some ds' ∧
        ds'.persistenceState = PersistenceState.Saved ∧ ds'.fileName = filename ∧
        ds'.proxy = ds.proxy ∧ ds'.producer = ds.producer ∧
        (saveData env filename st).state.otherDataSources = st.otherDataSources) ∧
    ((saveData env filename st).outcome = Outcome.returned false →
      (saveData env filename st).state = st) := by
  obtain ⟨ht, hf⟩ := saveData_marks env filename st
  refine ⟨fun h => ?_, hf⟩
  obtain ⟨ds, hds, hst⟩ := ht h
  exact ⟨ds, updateSource filename ds, hds, by rw [hst], rfl, rfl, rfl, rfl, by rw [hst]⟩

/-- C2 at three runs: the EMD writer succeeds, the EMD writer fails, the dialog is
cancelled. -/
theorem saveData_true_only_after_source_marked_saved_witness :
    (∃ ds ds', sourceOnlyState.activeDataSource = some ds ∧
        (saveData sampleEnv "out.emd".toList sourceOnlyState).state.activeDataSource =
          some ds' ∧
        ds'.persistenceState = PersistenceState.Saved ∧ ds'.fileName = "out.emd".toList ∧
        ds'.proxy = ds.proxy ∧ ds'.producer = ds.producer ∧
        (saveData sampleEnv "out.emd".toList sourceOnlyState).state.otherDataSources =
          sourceOnlyState.otherDataSources) ∧
    (saveData failingEmdEnv "out.emd".toList sourceOnlyState).state = sourceOnlyState ∧
    (saveData cancellingEnv "out.vti".toList sourceOnlyState).state = sourceOnlyState :=
  ⟨(saveData_true_only_after_source_marked_saved sampleEnv "out.emd".toList
      sourceOnlyState).1 (by decide),
    (saveData_true_only_after_source_marked_saved failingEmdEnv "out.emd".toList
      sourceOnlyState).2 (by decide),
    (saveData_true_only_after_source_marked_saved cancellingEnv "out.vti".toList
      sourceOnlyState).2 (by decide)⟩


theorem selectProducer_of_result (source : Option DataSource) (r : OperatorResult) :
    selectProducer source (some r) = r.producerProxy := rfl

theorem selectProducer_of_source (ds : DataSource) :
    selectProducer (some ds) none = ds.proxy := rfl

theorem handedData_append (xs ys : List Event) :
    handedData (xs ++ ys) = handedData xs ++ handedData ys := by
  simp [handedData, List.filterMap_append]

theorem trace_updateSourceReturnTrue (filename : QString) (st : AppState)
    (trace : List Event) :
    (updateSourceReturnTrue filename st trace).trace = trace := by
  unfold updateSourceReturnTrue
  cases st.activeDataSource <;> rfl

theorem handedData_saveDataDialog (env : Env) (filename : QString) (w : Writer)
    (st : AppState) (trace : List Event) :
    handedData (saveDataDialog env filename w st trace).trace = handedData trace := by
  unfold saveDataDialog
  repeat' split
  all_goals simp [trace_updateSourceReturnTrue, handedData_append, handedData, Event.handed]

theorem handedData_saveDataGeneric (env : Env) (filename : QString) (st : AppState) :
    Handed.producer (selectProducer st.activeDataSource st.activeOperatorResult) ∈
      handedData (saveDataGeneric env filename st [Event.registerPythonWriters]).trace ∧
    ∀ h ∈ handedData (saveDataGeneric env filename st [Event.registerPythonWriters]).trace,
      isFromProducer (selectProducer st.activeDataSource st.activeOperatorResult) h := by
  unfold saveDataGeneric
  simp only
  repeat' split
  all_goals
    simp only [trace_updateSourceReturnTrue, handedData_saveDataDialog, handedData_append]
    simp_all [handedData, Event.handed, isFromProducer, producerImage]

/-- C3, counterexample: with the sample data source and the sample operator result both
active and the file name `out.emd`, the one thing handed to a writer is the data source, not
the operator result's producer, and `saveData` returns `true`. -/
theorem saveData_emd_hands_source_while_result_active :
    sourceAndResultState.activeOperatorResult = some sampleResult ∧
    handedData (saveData sampleEnv "out.emd".toList sourceAndResultState).trace =
      [Handed.source (some sampleSource)] ∧
    (saveData sampleEnv "out.emd".toList sourceAndResultState).outcome =
      Outcome.returned true ∧
    ¬ savesActiveResult sampleEnv "out.emd".toList sourceAndResultState := by
  refine ⟨rfl, by decide, by decide, fun h => ?_⟩
  have h1 := h sampleResult rfl (Handed.source (some sampleSource)) (by decide)
  revert h1
  decide

/-- C3, amended: with a server and a data source or operator result active,
(1) when the suffix is not `emd` and no Python writer is registered for it, the producer
handed to the writer factory is the operator result's producer if a result is active and the
data source's proxy otherwise, and everything handed to a writer is that producer or its
image; (2) when the suffix is `emd`, the active data source is what is handed to the writer;
(3) when a Python writer is registered for the suffix and the active data source has a
producer, that producer's image is what is handed to the writer; (2) and (3) hold whether or
not an operator result is active. -/
theorem saveData_hands_result_only_in_writer_factory_path (env : Env) (filename : QString)
    (st : AppState) (hserver : st.activeServer = true)
    (hactive : st.activeDataSource ≠ none ∨ st.activeOperatorResult ≠ none) :
    (QFileInfo.suffix filename ≠ ['e', 'm', 'd'] →
      env.pythonWriterFactory (toLower (QFileInfo.suffix filename)) = none →
      savesActiveResult env filename st ∧
      (∀ r, st.activeOperatorResult = some r →
        Handed.producer r.producerProxy ∈ handedData (saveData env filename st).trace) ∧
      (∀ ds, st.activeOperatorResult = none → st.activeDataSource = some ds →
        Handed.producer ds.proxy ∈ handedData (saveData env filename st).trace ∧
        ∀ h ∈ handedData (saveData env filename st).trace, isFromProducer ds.proxy h)) ∧
    (∀ ds, QFileInfo.suffix filename = ['e', 'm', 'd'] → st.activeDataSource = some ds →
      handedData (saveData env filename st).trace = [Handed.source (some ds)]) ∧
    (∀ factory ds t, QFileInfo.suffix filename ≠ ['e', 'm', 'd'] →
      env.pythonWriterFactory (toLower (QFileInfo.suffix filename)) = some factory →
      st.activeDataSource = some ds → ds.producer = some t →
      handedData (saveData env filename st).trace = [Handed.image t.output]) := by
  have hguard : (st.activeDataSource.isNone && st.activeOperatorResult.isNone) = false := by
    rcases hactive with h | h
    · cases hs : st.activeDataSource
      · exact absurd hs h
      · simp
    · cases hr : st.activeOperatorResult
      · exact absurd hr h
      · simp
  refine ⟨fun hemd hpy => ?_, fun ds hemd hds => ?_, fun factory ds t hemd hpy hds ht => ?_⟩
  · have hrun : saveData env filename st =
        saveDataGeneric env filename st [Event.registerPythonWriters] := by
      simp [saveData, hserver, hguard, hemd, hpy]
    rw [hrun]
    obtain ⟨hmem, hall⟩ := handedData_saveDataGeneric env filename st
    refine ⟨fun r hr h hh => ?_, fun r hr => ?_, fun ds hr hds => ?_⟩
    · rw [hrun] at hh
      have := hall h hh
      rwa [hr, selectProducer_of_result] at this
    · rwa [hr, selectProducer_of_result] at hmem
    · rw [hr, hds, selectProducer_of_source] at hmem hall
      exact ⟨hmem, hall⟩
  · simp only [saveData, hserver, hguard, hemd]
    simp only [Bool.not_true, Bool.false_eq_true, if_false, if_true]
    split
    · simp [handedData, Event.handed, hds]
    · simp [trace_updateSourceReturnTrue, handedData, Event.handed, hds]
  · have hrun : (saveData env filename st).trace =
        if env.pythonWrite factory filename t.output = true then
          [Event.registerPythonWriters, Event.pythonWrite factory filename t.output]
        else
          [Event.registerPythonWriters, Event.pythonWrite factory filename t.output,
            Event.critical "Failed to write out data."] := by
      simp only [saveData, hserver, hguard, hemd, hpy]
      simp only [Bool.not_true, Bool.false_eq_true, if_false]
      rw [hds]
      simp only [ht]
      cases env.pythonWrite factory filename t.output <;>
        simp [trace_updateSourceReturnTrue]
    rw [hrun]
    split <;> simp [handedData, Event.handed]


/-- The amended C3 at `out.vti` with the data source and the operator result both active:
the writer factory is handed the operator result's producer. -/
theorem saveData_hands_result_only_in_writer_factory_path_witness :
    sourceAndResultState.activeServer = true ∧
    (sourceAndResultState.activeDataSource ≠ none ∨
      sourceAndResultState.activeOperatorResult ≠ none) ∧
    savesActiveResult sampleEnv "out.vti".toList sourceAndResultState ∧
    Handed.producer sampleResult.producerProxy ∈
      handedData (saveData sampleEnv "out.vti".toList sourceAndResultState).trace :=
  have h := saveData_hands_result_only_in_writer_factory_path sampleEnv "out.vti".toList
    sourceAndResultState rfl (Or.inl (by decide))
  ⟨rfl, Or.inl (by decide), (h.1 (by decide) rfl).1, (h.1 (by decide) rfl).2.1 sampleResult rfl⟩

theorem saveData_eq_saveDataDialog (env : Env) (filename : QString) (st : AppState)
    (w : Writer) (h : reachesDialog env filename st w) :
    saveData env filename st =
      saveDataDialog env filename w st
        [Event.registerPythonWriters,
          Event.createWriter (toLatin1 filename)
            (selectProducer st.activeDataSource st.activeOperatorResult)] := by
  obtain ⟨hserver, hactive, hemd, hpy, hw, cls, hcls, htiff⟩ := h
  have hguard : (st.activeDataSource.isNone && st.activeOperatorResult.isNone) = false := by
    rcases hactive with h | h
    · cases hs : st.activeDataSource
      · exact absurd hs h
      · simp
    · cases hr : st.activeOperatorResult
      · exact absurd hr h
      · simp
  simp only [saveData, hserver, hguard, hemd, hpy, saveDataGeneric, hw, hcls]
  simp only [Bool.not_true, Bool.false_eq_true, if_false, List.singleton_append]
  by_cases hc : cls = "vtkTIFFWriter"
  · obtain ⟨ty, hty, hne⟩ := htiff hc
    simp only [hc, if_true]
    cases hp : selectProducer st.activeDataSource st.activeOperatorResult with
    | none => simp [hp, producerImage] at hty
    | some p =>
      cases ht : p.trivialProducer with
      | none => simp [hp, ht, producerImage] at hty
      | some t =>
        cases hi : t.output with
        | none => simp [hp, ht, hi, producerImage] at hty
        | some img =>
          have : img.scalars = some ty := by simpa [hp, ht, hi, producerImage] using hty
          simp [ht, hi, this, hne]
  · simp [hc]

/-- The writer path of lines 197-217, for every run that reaches it with the writer `w`:
the dialog is shown once when `w` has visible properties and not at all otherwise; when it
is shown and rejected, `false` is returned and `w` is not run; in every other case `w` is
updated and run once, and then `true` is returned if a data source is active, while the run
ends in a null dereference (`updateSource` on a null `source`) if none is. -/
theorem writer_path_characterisation (env : Env) (filename : QString) (st : AppState) (w : Writer)
    (h : reachesDialog env filename st w) :
    dialogShows w (saveData env filename st).trace = (if w.hasVisibleWidgets then 1 else 0) ∧
    (w.hasVisibleWidgets = true → env.dialogResult w = QDialog.Rejected →
      (saveData env filename st).outcome = Outcome.returned false ∧
      writerUpdates w (saveData env filename st).trace = 0 ∧
      writerRuns w (saveData env filename st).trace = 0) ∧
    (¬ (w.hasVisibleWidgets = true ∧ env.dialogResult w = QDialog.Rejected) →
      writerUpdates w (saveData env filename st).trace = 1 ∧
      writerRuns w (saveData env filename st).trace = 1 ∧
      (st.activeDataSource ≠ none →
        (saveData env filename st).outcome = Outcome.returned true) ∧
      (st.activeDataSource = none →
        (saveData env filename st).outcome = Outcome.nullDeref)) := by
  rw [saveData_eq_saveDataDialog env filename st w h]
  unfold saveDataDialog updateSourceReturnTrue dialogShows writerUpdates writerRuns
  cases hv : w.hasVisibleWidgets <;>
    by_cases hd : env.dialogResult w = QDialog.Rejected <;>
    cases hs : st.activeDataSource <;> simp [List.count_cons, hd]

/-- C4, at the failing input: a server and the sample operator result are active, no data
source is, the file is `out.vti`.  The run reaches the writer path with `sampleWriter`, which
has no visible properties; the dialog is not shown, the writer is updated and run once, and
then the run dereferences the null `source` instead of returning `true`. -/
theorem saveData_writer_path_without_source_never_returns :
    reachesDialog sampleEnv "out.vti".toList resultOnlyState sampleWriter ∧
    (saveData sampleEnv "out.vti".toList resultOnlyState).trace =
      [Event.registerPythonWriters,
        Event.createWriter "out.vti".toList (some sampleResultProxy),
        Event.updateVTKObjects sampleWriter, Event.updatePipeline sampleWriter] ∧
    writerRuns sampleWriter (saveData sampleEnv "out.vti".toList resultOnlyState).trace = 1 ∧
    (saveData sampleEnv "out.vti".toList resultOnlyState).outcome = Outcome.nullDeref ∧
    (saveData sampleEnv "out.vti".toList resultOnlyState).outcome ≠ Outcome.returned true :=
  ⟨⟨rfl, Or.inr (by decide), by decide, rfl, rfl, "vtkXMLImageDataWriter", rfl,
      fun h => absurd h (by decide)⟩,
    by decide, by decide, by decide, by decide⟩

/-- C5: a newly constructed pipeline is not paused; after `pause()` it is paused; after
`resume(execute)` and after `resume(at)` it is not paused, for every pipeline and every
argument. -/
theorem Pipeline.paused_after_construction_pause_resume (dataSource : Nat) (p : Pipeline)
    (execute : Bool) (start : Nat) :
    (Pipeline.init dataSource).paused = false ∧
    p.pause.paused = true ∧
    (p.resume execute).1.paused = false ∧
    (p.resumeAt start).1.paused = false :=
  ⟨rfl, rfl, rfl, rfl⟩

/-- C6: an execution mode is `Threaded` or `Docker`, and these two differ; a pipeline whose
mode was never set reports `Threaded`; after `setExecutionMode(m)` the pipeline reports `m`,
for each mode `m`. -/
theorem Pipeline.executionMode_two_valued_default_and_set (dataSource : Nat) (p : Pipeline)
    (m : Pipeline.ExecutionMode) :
    (p.executionMode = Pipeline.ExecutionMode.Threaded ∨
      p.executionMode = Pipeline.ExecutionMode.Docker) ∧
    Pipeline.ExecutionMode.Threaded ≠ Pipeline.ExecutionMode.Docker ∧
    (Pipeline.init dataSource).executionMode = Pipeline.ExecutionMode.Threaded ∧
    (p.setExecutionMode m).executionMode = m := by
  refine ⟨?_, by decide, rfl, rfl⟩
  cases h : p.executionMode
  · exact Or.inl rfl
  · exact Or.inr rfl

end tomviz
